import Mathlib

/-!
Verification of the stock-monitor program (src/stock_monitor.py).

The development shallowly embeds the classification logic of
`check_stock_status` and the notification / persistence flow of `main`:

* `strCount hay needle` is Python's `hay.count(needle)` (non-overlapping
  substring occurrences) for a non-empty needle; `strContains` is the
  substring test `needle in hay`.
* The phrase lists, the mobile gate, the desktop-content score, the model
  counts and the decision chain are transcribed literally from the source.
* `runTrace` records the externally visible actions of one invocation of
  `main` after classification: the conditional notification attempt of
  line 238 followed by the unconditional `save_current_status` call.
-/

set_option maxHeartbeats 1000000

inductive StockStatus where
  | IN_STOCK
  | OUT_OF_STOCK
  | PARTIAL_STOCK
  | UNKNOWN
  | ERROR
  deriving DecidableEq, Repr, Fintype

/-- Count non-overlapping occurrences of `needle` in the remaining text,
with explicit fuel so the function reduces in the kernel.  After a match the
scan resumes past the matched text, as Python's `str.count` does. -/
def countOccsAux (needle : List Char) : Nat → List Char → Nat
  | 0, _ => 0
  | _ + 1, [] => 0
  | fuel + 1, c :: rest =>
    if needle.isPrefixOf (c :: rest) then
      1 + countOccsAux needle fuel (rest.drop (needle.length - 1))
    else
      countOccsAux needle fuel rest

/-- Python `hay.count(needle)` for the non-empty needles used below. -/
def strCount (hay needle : String) : Nat :=
  countOccsAux needle.data hay.data.length hay.data

/-- Python `needle in hay` for the non-empty needles used below. -/
def strContains (hay needle : String) : Bool :=
  decide (0 < strCount hay needle)

/-- Source list `mobile_indicators` of `check_stock_status`. -/
def mobile_indicators : List String :=
  ["get the steam mobile app", "view desktop website", "mobile version", "switch to desktop"]

/-- Source `mobile_detected = any(indicator in page_text for indicator in mobile_indicators)`. -/
def mobile_detected (t : String) : Bool :=
  mobile_indicators.any (fun p => strContains t p)

/-- Source list `desktop_indicators` of `check_stock_status`. -/
def desktop_indicators : List String :=
  ["steam deck", "certified refurbished", "valve", "£389", "£459", "out of stock", "add to cart"]

/-- Source `desktop_content_score = sum(1 for indicator in desktop_indicators if indicator in page_text)`. -/
def desktop_content_score (t : String) : Nat :=
  (desktop_indicators.filter (fun p => strContains t p)).length

/-- Source list `out_of_stock_variations` of `check_stock_status`. -/
def out_of_stock_variations : List String :=
  ["out of stock", "outofstock", "sold out", "soldout", "unavailable", "not available", "coming soon"]

/-- Source list `in_stock_variations` of `check_stock_status`. -/
def in_stock_variations : List String :=
  ["add to cart", "buy now", "purchase", "order now", "buy", "order", "available now"]

/-- Source `out_of_stock_count = sum(page_text.count(phrase) for phrase in out_of_stock_variations)`. -/
def out_of_stock_count (t : String) : Nat :=
  (out_of_stock_variations.map (fun p => strCount t p)).sum

/-- Source `in_stock_count = sum(page_text.count(phrase) for phrase in in_stock_variations)`. -/
def in_stock_count (t : String) : Nat :=
  (in_stock_variations.map (fun p => strCount t p)).sum

/-- The five per-model counts of `model_counts` in `check_stock_status`. -/
def model_counts (t : String) : List Nat :=
  [ strCount t "512 gb oled" + strCount t "512gb oled"
  , strCount t "1tb oled" + strCount t "1 tb oled"
  , strCount t "64 gb lcd" + strCount t "64gb lcd"
  , strCount t "256 gb lcd" + strCount t "256gb lcd"
  , strCount t "512 gb lcd" + strCount t "512gb lcd" ]

/-- Source `total_models = sum(count for count in model_counts.values() if count > 0)`. -/
def total_models (t : String) : Nat :=
  ((model_counts t).filter (fun c => 0 < c)).sum

/-- Source `price_mentions` of `check_stock_status` (computed by the source but not
used by its decision chain). -/
def price_mentions (t : String) : Nat :=
  ((["£389", "£459", "£249", "£279", "£319"] : List String).map (fun p => strCount t p)).sum

/-- The classification body of `check_stock_status`, as a function of the
lower-cased page text: the mobile / insufficient-content gate of lines
117-121 followed by the decision chain of lines 172-186. -/
def classify (t : String) : StockStatus :=
  if mobile_detected t = true ∨ desktop_content_score t < 3 then StockStatus.ERROR
  else if 3 ≤ out_of_stock_count t ∧ 2 ≤ total_models t then StockStatus.OUT_OF_STOCK
  else if 0 < in_stock_count t ∧ out_of_stock_count t = 0 ∧ 2 ≤ total_models t then
    StockStatus.IN_STOCK
  else if 0 < in_stock_count t ∧ 0 < out_of_stock_count t ∧ 2 ≤ total_models t then
    StockStatus.PARTIAL_STOCK
  else StockStatus.UNKNOWN

/-- Outcome of the fetch-and-parse phase of `check_stock_status`: either the
lower-cased page text, or one of the two exception classes caught at lines
188-193 (`requests.RequestException`, any other `Exception`). -/
inductive FetchOutcome where
  | success : String → FetchOutcome
  | requestFailure : FetchOutcome
  | parseFailure : FetchOutcome

/-- Function `check_stock_status`: classify the page text on success; both `except`
arms return the string "ERROR". -/
def check_stock_status : FetchOutcome → StockStatus
  | FetchOutcome.success pageText => classify pageText
  | FetchOutcome.requestFailure => StockStatus.ERROR
  | FetchOutcome.parseFailure => StockStatus.ERROR

/-- Externally visible actions of one run of `main` after classification:
an email send attempt (whose success is the payload) or a write of the
persisted status file. -/
inductive Event where
  | notifyAttempt : Bool → Event
  | stateWrite : StockStatus → Event
  deriving DecidableEq, Repr

/-- Source test `status in ["IN_STOCK", "PARTIAL_STOCK"]`. -/
def statusInAvail (s : StockStatus) : Bool :=
  s == StockStatus.IN_STOCK || s == StockStatus.PARTIAL_STOCK

/-- Source test `previous_status in ["IN_STOCK", "PARTIAL_STOCK"]` where a missing state
file yields `previous_status = None`, which is not in the list. -/
def prevInAvail : Option StockStatus → Bool
  | none => false
  | some s => statusInAvail s

/-- The action trace of one run of `main` given the loaded previous status,
the current classification, and whether the email transport would succeed:
line 238 guards the single `send_notification` call, and line 284 calls
`save_current_status(current_status)` unconditionally afterwards. -/
def runTrace (previous : Option StockStatus) (current : StockStatus) (emailOk : Bool) :
    List Event :=
  (if statusInAvail current && !prevInAvail previous then [Event.notifyAttempt emailOk] else [])
    ++ [Event.stateWrite current]

/-- The sequence of persisted-state writes in a trace. -/
def writesOf (tr : List Event) : List StockStatus :=
  tr.filterMap (fun e => match e with | Event.stateWrite s => some s | _ => none)

/-- Sample page text: one unavailability phrase, no availability phrase, two
model markers, gate passed. -/
def c2cexText : String := "steam deck valve £389 sold out 1tb oled 1tb oled"

/-- Sample page text: three unavailability phrases, no availability phrase,
two model markers, gate passed. -/
def c2witText : String :=
  "steam deck valve £389 out of stock out of stock out of stock 1tb oled 1tb oled"

/-- Sample page text: one availability phrase, no unavailability phrase, no
model markers, gate passed. -/
def c3cexText : String := "steam deck valve £389 add to cart"

/-- Sample page text: one availability phrase, no unavailability phrase, two
model markers, gate passed. -/
def c3witText : String := "steam deck valve £389 add to cart 1tb oled 1tb oled"

/-- Sample page text: one availability phrase, three unavailability phrases,
two model markers, gate passed. -/
def c4cexText : String :=
  "steam deck add to cart out of stock out of stock out of stock 1tb oled 1tb oled"

/-- Sample page text: one availability phrase, one unavailability phrase,
two model markers, gate passed. -/
def c4witPText : String := "steam deck valve add to cart sold out 1tb oled 1tb oled"

/-- Sample page text: no availability or unavailability phrase, gate passed. -/
def c4witUText : String := "steam deck valve £389"

/-- Sample page text: one availability phrase, three unavailability phrases,
two model markers, gate passed. -/
def c5cexText : String :=
  "steam deck valve add to cart sold out sold out sold out 1tb oled 1tb oled"

/-- Sample page text: one availability phrase, no unavailability phrase. -/
def c5witText : String := "steam deck valve £459 add to cart"

/-- Sample page text matching no indicator at all. -/
def c6witText : String := "hello"

/-- Sample page text containing a mobile-version indicator. -/
def c10witText : String := "mobile version"

/-- Claim C1 (confirmed): the notification decision is edge-triggered — for
every previous persisted status (absent treated as not-in-stock) and current
classification, a notification is attempted if and only if the current
status is IN_STOCK or PARTIAL_STOCK and the previous status is neither. -/
theorem C1_edge_trigger :
    ∀ (previous : Option StockStatus) (current : StockStatus) (emailOk : Bool),
      Event.notifyAttempt emailOk ∈ runTrace previous current emailOk ↔
        ((current = StockStatus.IN_STOCK ∨ current = StockStatus.PARTIAL_STOCK) ∧
          previous ≠ some StockStatus.IN_STOCK ∧ previous ≠ some StockStatus.PARTIAL_STOCK) := by
  decide

/-- Claim C2 counterexample: a gate-passing page with one unavailability
phrase, no availability phrase and two model markers is classified UNKNOWN,
not OUT_OF_STOCK. -/
theorem C2_counterexample :
    0 < out_of_stock_count c2cexText ∧ in_stock_count c2cexText = 0 ∧
      classify c2cexText ≠ StockStatus.OUT_OF_STOCK := by
  decide

/-- Claim C2 (corrected): for every gate-passing input with at least three
unavailability phrases, at least two model markers and zero availability
phrases, the classifier returns OUT_OF_STOCK. -/
theorem C2_amended (t : String)
    (hm : mobile_detected t = false) (hd : 3 ≤ desktop_content_score t)
    (hu : 3 ≤ out_of_stock_count t) (hmod : 2 ≤ total_models t)
    (ha : in_stock_count t = 0) :
    classify t = StockStatus.OUT_OF_STOCK := by
  have hg : ¬(mobile_detected t = true ∨ desktop_content_score t < 3) := by
    rw [hm]; simp; omega
  unfold classify
  rw [if_neg hg, if_pos ⟨hu, hmod⟩]

/-- Claim C2 witness: a concrete gate-passing page with three unavailability
phrases, two model markers and no availability phrase is OUT_OF_STOCK. -/
theorem C2_witness : classify c2witText = StockStatus.OUT_OF_STOCK :=
  C2_amended c2witText (by decide) (by decide) (by decide) (by decide) (by decide)

/-- Claim C3 counterexample: a gate-passing page with one availability
phrase, no unavailability phrase and no model marker is classified UNKNOWN,
not IN_STOCK. -/
theorem C3_counterexample :
    0 < in_stock_count c3cexText ∧ out_of_stock_count c3cexText = 0 ∧
      classify c3cexText ≠ StockStatus.IN_STOCK := by
  decide

/-- Claim C3 (corrected): for every gate-passing input with a positive
availability count, a zero unavailability count and at least two model
markers, the classifier returns IN_STOCK. -/
theorem C3_amended (t : String)
    (hm : mobile_detected t = false) (hd : 3 ≤ desktop_content_score t)
    (ha : 0 < in_stock_count t) (hu : out_of_stock_count t = 0)
    (hmod : 2 ≤ total_models t) :
    classify t = StockStatus.IN_STOCK := by
  have hg : ¬(mobile_detected t = true ∨ desktop_content_score t < 3) := by
    rw [hm]; simp; omega
  unfold classify
  rw [if_neg hg, if_neg (by omega), if_pos ⟨ha, hu, hmod⟩]

/-- Claim C3 witness: a concrete gate-passing page with one availability
phrase, no unavailability phrase and two model markers is IN_STOCK. -/
theorem C3_witness : classify c3witText = StockStatus.IN_STOCK :=
  C3_amended c3witText (by decide) (by decide) (by decide) (by decide) (by decide)

/-- Claim C4 counterexample: a gate-passing page with both counts positive
(one availability phrase, three unavailability phrases, two model markers)
is classified OUT_OF_STOCK, not PARTIAL_STOCK. -/
theorem C4_counterexample :
    0 < in_stock_count c4cexText ∧ 0 < out_of_stock_count c4cexText ∧
      classify c4cexText ≠ StockStatus.PARTIAL_STOCK := by
  decide

/-- Claim C4 (corrected): for every gate-passing input, if both counts are
positive, the unavailability count is below three and there are at least
two model markers then the classifier returns PARTIAL_STOCK, and if both
counts are zero it returns UNKNOWN. -/
theorem C4_amended (t : String)
    (hm : mobile_detected t = false) (hd : 3 ≤ desktop_content_score t) :
    (0 < in_stock_count t ∧ 0 < out_of_stock_count t ∧ out_of_stock_count t < 3 ∧
        2 ≤ total_models t → classify t = StockStatus.PARTIAL_STOCK) ∧
    (in_stock_count t = 0 ∧ out_of_stock_count t = 0 → classify t = StockStatus.UNKNOWN) := by
  have hg : ¬(mobile_detected t = true ∨ desktop_content_score t < 3) := by
    rw [hm]; simp; omega
  constructor
  · rintro ⟨ha, hu, hu3, hmod⟩
    unfold classify
    rw [if_neg hg, if_neg (by omega), if_neg (by omega), if_pos ⟨ha, hu, hmod⟩]
  · rintro ⟨ha, hu⟩
    unfold classify
    rw [if_neg hg, if_neg (by omega), if_neg (by omega), if_neg (by omega)]

/-- Claim C4 witness: a concrete mixed-signal gate-passing page is
PARTIAL_STOCK and a concrete no-signal gate-passing page is UNKNOWN. -/
theorem C4_witness :
    classify c4witPText = StockStatus.PARTIAL_STOCK ∧
      classify c4witUText = StockStatus.UNKNOWN :=
  ⟨(C4_amended c4witPText (by decide) (by decide)).1 (by decide),
   (C4_amended c4witUText (by decide) (by decide)).2 (by decide)⟩

/-- Claim C5 counterexample: a gate-passing page with a positive
availability count (one availability phrase) but three unavailability
phrases and two model markers is classified OUT_OF_STOCK — the threshold
branch does override the positive availability signal. -/
theorem C5_counterexample :
    0 < in_stock_count c5cexText ∧ classify c5cexText = StockStatus.OUT_OF_STOCK := by
  decide

/-- Claim C5 (corrected): for every input with a positive availability count
whose unavailability count is below the threshold of three, the
classification is never OUT_OF_STOCK; when the unavailability count reaches
three with at least two model markers, OUT_OF_STOCK wins even against a
positive availability count. -/
theorem C5_amended (t : String) (ha : 0 < in_stock_count t)
    (hu : out_of_stock_count t < 3) :
    classify t ≠ StockStatus.OUT_OF_STOCK := by
  unfold classify
  split
  · decide
  · rw [if_neg (by omega)]
    split
    · decide
    · split
      · decide
      · decide

/-- Claim C5 witness: a concrete page with one availability phrase and no
unavailability phrase is not classified OUT_OF_STOCK. -/
theorem C5_witness : classify c5witText ≠ StockStatus.OUT_OF_STOCK :=
  C5_amended c5witText (by decide) (by decide)

/-- Claim C6 (confirmed): if the page-identity count (the source's
desktop-content score) is zero and the model-marker count is zero, the
classifier returns ERROR, whatever the availability and unavailability
counts are. -/
theorem C6_identity_gate (t : String) (hd : desktop_content_score t = 0)
    (hmod : total_models t = 0) : classify t = StockStatus.ERROR := by
  unfold classify
  rw [if_pos (Or.inr (by omega))]

/-- Claim C6 witness: a page with no indicators at all is ERROR. -/
theorem C6_witness : classify c6witText = StockStatus.ERROR :=
  C6_identity_gate c6witText (by decide) (by decide)

/-- Claim C7 counterexample: a run that classifies ERROR while the stored
previous status is IN_STOCK overwrites the persisted state with ERROR, and
the following run (previous now ERROR) attempts a notification on IN_STOCK
— the available memory is not preserved. -/
theorem C7_counterexample :
    writesOf (runTrace (some StockStatus.IN_STOCK) StockStatus.ERROR true) =
        [StockStatus.ERROR] ∧
      Event.notifyAttempt true ∈ runTrace (some StockStatus.ERROR) StockStatus.IN_STOCK true := by
  decide

/-- Claim C7 (corrected): a run whose current classification is ERROR or
UNKNOWN never attempts a notification, but it overwrites the persisted
state with that ERROR or UNKNOWN value rather than preserving a previously
stored available status, so the notification edge is re-armed for the next
run. -/
theorem C7_amended :
    ∀ (previous : Option StockStatus) (emailOk : Bool) (current : StockStatus),
      current = StockStatus.ERROR ∨ current = StockStatus.UNKNOWN →
      (∀ b : Bool, Event.notifyAttempt b ∉ runTrace previous current emailOk) ∧
        writesOf (runTrace previous current emailOk) = [current] := by
  decide

/-- Claim C7 witness: an ERROR run over a stored IN_STOCK status attempts no
notification and writes ERROR. -/
theorem C7_witness :
    (∀ b : Bool,
        Event.notifyAttempt b ∉ runTrace (some StockStatus.IN_STOCK) StockStatus.ERROR true) ∧
      writesOf (runTrace (some StockStatus.IN_STOCK) StockStatus.ERROR true) =
        [StockStatus.ERROR] :=
  C7_amended (some StockStatus.IN_STOCK) true StockStatus.ERROR (Or.inl rfl)

/-- Claim C8 (confirmed): every run writes the persisted state exactly once,
with the current classification, as the last action of the run — after the
notification decision and attempt, for every classification outcome and
regardless of whether the email send succeeded. -/
theorem C8_persist :
    ∀ (previous : Option StockStatus) (current : StockStatus) (emailOk : Bool),
      writesOf (runTrace previous current emailOk) = [current] ∧
        (runTrace previous current emailOk).getLast? = some (Event.stateWrite current) := by
  decide

/-- Claim C9 (confirmed): check_stock_status is total over every fetch
outcome — transport and parse failures map to ERROR rather than escaping —
and its result is always one of the five enumeration values. -/
theorem C9_total (o : FetchOutcome) :
    check_stock_status o = StockStatus.IN_STOCK ∨
    check_stock_status o = StockStatus.OUT_OF_STOCK ∨
    check_stock_status o = StockStatus.PARTIAL_STOCK ∨
    check_stock_status o = StockStatus.UNKNOWN ∨
    check_stock_status o = StockStatus.ERROR := by
  cases h : check_stock_status o <;> simp

/-- Claim C10 (confirmed): any page whose lower-cased text contains one of
the four mobile-version indicator substrings is classified ERROR, whatever
every other count is. -/
theorem C10_mobile_gate (t : String) (hm : mobile_detected t = true) :
    classify t = StockStatus.ERROR := by
  unfold classify
  rw [if_pos (Or.inl hm)]

/-- Claim C10 witness: a page containing a mobile indicator is ERROR. -/
theorem C10_witness : classify c10witText = StockStatus.ERROR :=
  C10_mobile_gate c10witText (by decide)
